import Mathlib

/-!
Shallow embedding of the weather-lookup logic of `src/App.js`:
the pure code-to-presentation table `getWeatherDetails` (lines 66-76)
and the stateful two-step fetch `fetchWeather` (lines 21-63), modelled
by explicit state passing.  The two network responses are supplied as
oracle parameters (a real run fixes them to whatever the servers send),
and the outbound HTTP requests are collected in a trace list.
JSON numbers are modelled as exact rationals (`Rat`); the stored
`temp` and `code` fields are `Option`-valued so that `none` models the
JavaScript `NaN` / `undefined` that arise when a forecast field is
absent.
-/

/-- The presentation record returned by `getWeatherDetails`
(App.js lines 66-76): icon name, label, color. -/
structure WeatherDetails where
  icon : String
  label : String
  color : String
deriving DecidableEq

/-- `getWeatherDetails` (App.js lines 66-76): chained `if` statements on
the WMO weather code, first match wins, final line is the default. -/
def getWeatherDetails (code : Int) : WeatherDetails :=
  if code = 0 then ⟨"weather-sunny", "Céu Limpo", "#FDB813"⟩
  else if 1 ≤ code ∧ code ≤ 3 then ⟨"weather-partly-cloudy", "Parcialmente Nublado", "#A0A0A0"⟩
  else if 45 ≤ code ∧ code ≤ 48 then ⟨"weather-fog", "Nevoeiro", "#787878"⟩
  else if 51 ≤ code ∧ code ≤ 67 then ⟨"weather-rainy", "Chuva", "#4299E1"⟩
  else if 71 ≤ code ∧ code ≤ 77 then ⟨"weather-snowy", "Neve", "#90CDF4"⟩
  else if 80 ≤ code ∧ code ≤ 82 then ⟨"weather-pouring", "Pancadas de Chuva", "#2B6CB0"⟩
  else if 95 ≤ code ∧ code ≤ 99 then ⟨"weather-lightning", "Tempestade", "#805AD5"⟩
  else ⟨"weather-sunny", "Céu Limpo", "#FDB813"⟩

/-- The default presentation (App.js lines 67 and 75): clear sky. -/
def clearSkyDetails : WeatherDetails := ⟨"weather-sunny", "Céu Limpo", "#FDB813"⟩

/-- The seven guarded branches of `getWeatherDetails` in source order
(App.js lines 67-73), each as a decidable test on the code together
with the presentation that branch returns. -/
def rangeTable : List ((Int → Bool) × WeatherDetails) :=
  [ (fun c => decide (c = 0), ⟨"weather-sunny", "Céu Limpo", "#FDB813"⟩),
    (fun c => decide (1 ≤ c ∧ c ≤ 3), ⟨"weather-partly-cloudy", "Parcialmente Nublado", "#A0A0A0"⟩),
    (fun c => decide (45 ≤ c ∧ c ≤ 48), ⟨"weather-fog", "Nevoeiro", "#787878"⟩),
    (fun c => decide (51 ≤ c ∧ c ≤ 67), ⟨"weather-rainy", "Chuva", "#4299E1"⟩),
    (fun c => decide (71 ≤ c ∧ c ≤ 77), ⟨"weather-snowy", "Neve", "#90CDF4"⟩),
    (fun c => decide (80 ≤ c ∧ c ≤ 82), ⟨"weather-pouring", "Pancadas de Chuva", "#2B6CB0"⟩),
    (fun c => decide (95 ≤ c ∧ c ≤ 99), ⟨"weather-lightning", "Tempestade", "#805AD5"⟩) ]

/-- Modelled from the spec's wording of the tie-break rule: the ranges are
tested in the fixed priority order of `rangeTable`, the first matching
range wins, and a code matching no range yields the clear-sky default. -/
def classifyByTable (code : Int) : WeatherDetails :=
  match rangeTable.find? (fun p => p.1 code) with
  | some p => p.2
  | none => clearSkyDetails

/-- How many of the seven range tests of `rangeTable` accept `code`. -/
def matchCount (code : Int) : Nat :=
  (rangeTable.filter (fun p => p.1 code)).length

/-- JavaScript `String.prototype.trim` (used at App.js line 22 as
`city.trim()`): whitespace stripped from both ends of the string. -/
def jsTrim (s : String) : String :=
  String.mk (((s.data.dropWhile Char.isWhitespace).reverse.dropWhile Char.isWhitespace).reverse)

/-- JavaScript `Math.round` (App.js line 54) on an exact rational:
rounds to the nearest integer, halves toward positive infinity,
i.e. the floor of `x + 1/2`, written on numerator and denominator so
that it evaluates by machine arithmetic. -/
def jsRound (x : Rat) : Int :=
  Int.fdiv (2 * x.num + x.den) (2 * x.den)

/-- The outcome of one `await fetch(...)` + `await resp.json()` pair:
either a raised condition (transport error or decode error) carrying
the thrown error's `message` (`none` models a missing message), or a
decoded JSON value. -/
inductive FetchOutcome (α : Type) where
  | fail (message : Option String)
  | ok (value : α)
deriving DecidableEq

/-- One entry of the geocoding response's `results` array
(App.js line 42 destructures these five fields; `admin1` may be absent). -/
structure GeoEntry where
  latitude : Rat
  longitude : Rat
  name : String
  admin1 : Option String
  country_code : String
deriving DecidableEq

/-- The decoded geocoding response body: the `results` field may be
absent (`none`) or an array (App.js line 38 tests both). -/
structure GeoData where
  results : Option (List GeoEntry)
deriving DecidableEq

/-- The `current` object of the forecast response; either field may be
absent in the decoded JSON (`none` models `undefined`). -/
structure ForecastCurrent where
  temperature_2m : Option Rat
  weather_code : Option Int
deriving DecidableEq

/-- The decoded forecast response body: the `current` object may be
absent (App.js lines 54-55 access it unguarded). -/
structure ForecastData where
  current : Option ForecastCurrent
deriving DecidableEq

/-- The object stored by `setWeatherData` on success (App.js lines 50-56).
`temp = none` models `NaN` (`Math.round(undefined)`); `code = none`
models `undefined`. -/
structure WeatherData where
  city : String
  region : Option String
  country : String
  temp : Option Int
  code : Option Int
deriving DecidableEq

/-- The three pieces of component state that `fetchWeather` touches
(App.js lines 17-19): `weatherData`, `loading`, `error`. -/
structure AppState where
  weatherData : Option WeatherData
  loading : Bool
  error : Option String
deriving DecidableEq

/-- An outbound HTTP request, with the parameters that vary:
the geocoding request carries the (URL-encoded) city text, the
forecast request carries the latitude/longitude taken from geocoding. -/
inductive Request where
  | geocoding (name : String)
  | forecast (latitude longitude : Rat)
deriving DecidableEq

/-- JavaScript `err.message || fallback` (App.js line 59): the fallback
is used when the message is absent or the empty string (both falsy). -/
def messageOr (message : Option String) (fallback : String) : String :=
  match message with
  | none => fallback
  | some s => if s = "" then fallback else s

/-- The message of the `TypeError` raised by reading `.temperature_2m`
off an `undefined` `current` object (App.js line 54).  The exact text is
engine-dependent; the theorems below rely only on it being stored, never
on its wording.  It is non-empty, as every engine's message is. -/
def typeErrorMessage : String := "Cannot read properties of undefined"

/-- The `try` block of `fetchWeather` (App.js lines 30-57): the two
awaited fetch/decode steps with the empty-results guard and the
construction of the stored weather object.  Returns the raised
condition or the constructed object, paired with the trace of requests
issued (a request is recorded as soon as `fetch` is called, whether or
not its response later fails). -/
def fetchWeatherTry (city : String) (geo : FetchOutcome GeoData)
    (forecast : FetchOutcome ForecastData) :
    Except (Option String) WeatherData × List Request :=
  match geo with
  | .fail message => (Except.error message, [Request.geocoding city])
  | .ok geoData =>
    match geoData.results with
    | none => (Except.error (some "Cidade não encontrada."), [Request.geocoding city])
    | some [] => (Except.error (some "Cidade não encontrada."), [Request.geocoding city])
    | some (first :: _) =>
      let reqs := [Request.geocoding city, Request.forecast first.latitude first.longitude]
      match forecast with
      | .fail message => (Except.error message, reqs)
      | .ok weatherDataResult =>
        match weatherDataResult.current with
        | none => (Except.error (some typeErrorMessage), reqs)
        | some current =>
          (Except.ok
            { city := first.name
              region := first.admin1
              country := first.country_code
              temp := current.temperature_2m.map jsRound
              code := current.weather_code }, reqs)

/-- `fetchWeather` (App.js lines 21-63).  The guard at line 22 returns
without touching state or the network.  Otherwise state is reset
(lines 26-28), the try block runs, a success stores the weather object
(line 50), a failure stores `err.message || 'Erro ao buscar dados.'`
(line 59), and `finally` clears the loading flag (line 61).  Returns
the final state and the trace of requests issued. -/
def fetchWeather (city : String) (geo : FetchOutcome GeoData)
    (forecast : FetchOutcome ForecastData) (s : AppState) : AppState × List Request :=
  if jsTrim city = "" then (s, [])
  else
    let s1 : AppState := { s with loading := true }
    let s2 : AppState := { s1 with error := none }
    let s3 : AppState := { s2 with weatherData := none }
    match fetchWeatherTry city geo forecast with
    | (Except.ok wd, reqs) =>
      ({ { s3 with weatherData := some wd } with loading := false }, reqs)
    | (Except.error message, reqs) =>
      ({ { s3 with error := some (messageOr message "Erro ao buscar dados.") } with
          loading := false }, reqs)

/-- The concrete geocoding response body of the spec's round-trip test:
one result for São Paulo at (-23.5, -46.6). -/
def saoPauloGeo : GeoData :=
  ⟨some [{ latitude := mkRat (-235) 10, longitude := mkRat (-466) 10,
           name := "São Paulo", admin1 := some "SP", country_code := "BR" }]⟩

/-- The concrete forecast response body of the spec's round-trip test:
current temperature 21.4 °C, weather code 3. -/
def saoPauloForecast : ForecastData := ⟨some ⟨some (mkRat 214 10), some 3⟩⟩

/-- A forecast response body whose `current` object is present but lacks
the `temperature_2m` field. -/
def missingTempForecast : ForecastData := ⟨some ⟨none, some 3⟩⟩

/-- Sanity link: `jsRound` is the floor of `x + 1/2`, the idealised
`Math.round`. -/
theorem jsRound_eq_floor (x : Rat) : jsRound x = ⌊x + 1 / 2⌋ := by
  have hden : ((x.den : ℚ)) ≠ 0 := Nat.cast_ne_zero.mpr x.den_nz
  have hnum : ((x.num : ℚ)) = x * (x.den : ℚ) := by
    rw [eq_comm, ← eq_div_iff hden]
    exact (Rat.num_div_den x).symm
  have hx : x + 1 / 2 = ((2 * x.num + (x.den : ℤ) : ℤ) : ℚ) / ((2 * x.den : ℕ) : ℚ) := by
    push_cast
    field_simp
    rw [hnum]
    ring
  rw [hx, Rat.floor_intCast_div_natCast, jsRound, Int.fdiv_eq_ediv _ (by positivity)]
  push_cast
  rfl

theorem gwd_default (code : Int)
    (h1 : ¬(1 ≤ code ∧ code ≤ 3)) (h2 : ¬(45 ≤ code ∧ code ≤ 48))
    (h3 : ¬(51 ≤ code ∧ code ≤ 67)) (h4 : ¬(71 ≤ code ∧ code ≤ 77))
    (h5 : ¬(80 ≤ code ∧ code ≤ 82)) (h6 : ¬(95 ≤ code ∧ code ≤ 99)) :
    getWeatherDetails code = clearSkyDetails := by
  unfold getWeatherDetails
  split_ifs <;> rfl

theorem gwd_eq_table (c : Int) : getWeatherDetails c = classifyByTable c := by
  unfold getWeatherDetails classifyByTable rangeTable clearSkyDetails
  split_ifs <;> simp [List.find?, *]

theorem matchCount_le_one (c : Int) : matchCount c ≤ 1 := by
  unfold matchCount rangeTable
  by_cases h0 : c = 0 <;> by_cases h1 : 1 ≤ c ∧ c ≤ 3 <;> by_cases h2 : 45 ≤ c ∧ c ≤ 48 <;>
    by_cases h3 : 51 ≤ c ∧ c ≤ 67 <;> by_cases h4 : 71 ≤ c ∧ c ≤ 77 <;>
    by_cases h5 : 80 ≤ c ∧ c ≤ 82 <;> by_cases h6 : 95 ≤ c ∧ c ≤ 99 <;>
    first
    | (exfalso; omega)
    | simp [List.filter, h0, h1, h2, h3, h4, h5, h6]

/-- C1: `getWeatherDetails` is a pure, total function: every integer code
matching none of the seven listed ranges — including negative numbers and
codes above 99 — returns the same default presentation as code 0, the
clear-sky record (icon `weather-sunny`, label `Céu Limpo`, color
`#FDB813`), so in particular codes 0, -5 and 100 all yield it. -/
theorem classify_total_default :
    (∀ code : Int,
        ¬(1 ≤ code ∧ code ≤ 3) → ¬(45 ≤ code ∧ code ≤ 48) →
        ¬(51 ≤ code ∧ code ≤ 67) → ¬(71 ≤ code ∧ code ≤ 77) →
        ¬(80 ≤ code ∧ code ≤ 82) → ¬(95 ≤ code ∧ code ≤ 99) →
        getWeatherDetails code = clearSkyDetails) ∧
    getWeatherDetails 0 = clearSkyDetails ∧
    getWeatherDetails (-5) = clearSkyDetails ∧
    getWeatherDetails 100 = clearSkyDetails :=
  ⟨fun code h1 h2 h3 h4 h5 h6 => gwd_default code h1 h2 h3 h4 h5 h6,
   by decide, by decide, by decide⟩

/-- Witness for C1: code 10 matches no range and yields the default. -/
theorem classify_total_default_witness :
    getWeatherDetails 10 = clearSkyDetails :=
  classify_total_default.1 10 (by decide) (by decide) (by decide) (by decide)
    (by decide) (by decide)

/-- C2: `getWeatherDetails` agrees everywhere with the first-match
semantics of its fixed range table in source order; the seven ranges are
pairwise non-overlapping (no code passes two of them); for every code in
[0,99] exactly one of the eight branches (seven ranges plus the default,
which fires exactly when no range matches) applies; and the function is
deterministic. -/
theorem classify_range_table :
    (∀ code : Int, getWeatherDetails code = classifyByTable code) ∧
    (∀ code : Int, matchCount code ≤ 1) ∧
    (∀ code : Int, 0 ≤ code → code ≤ 99 →
        matchCount code + (if matchCount code = 0 then 1 else 0) = 1) ∧
    (∀ c1 c2 : Int, c1 = c2 → getWeatherDetails c1 = getWeatherDetails c2) := by
  refine ⟨gwd_eq_table, matchCount_le_one, ?_, ?_⟩
  · intro code _ _
    have h := matchCount_le_one code
    rcases Nat.le_one_iff_eq_zero_or_eq_one.mp h with h1 | h1 <;> simp [h1]
  · intro c1 c2 h
    rw [h]

/-- Witness for C2: at code 10 no range matches and the default branch is
the single applying branch. -/
theorem classify_range_table_witness :
    matchCount 10 + (if matchCount 10 = 0 then 1 else 0) = 1 :=
  classify_range_table.2.2.1 10 (by decide) (by decide)

/-- C3 counterexample: with an empty geocoding result set the stored
user-facing message is the source's Portuguese string
`Cidade não encontrada.`, not the claimed `City not found`. -/
theorem lookup_notfound_message_counterexample :
    (fetchWeather "sao paulo" (FetchOutcome.ok ⟨some []⟩) (FetchOutcome.fail none)
        ⟨none, false, none⟩).1.error = some "Cidade não encontrada." ∧
    (fetchWeather "sao paulo" (FetchOutcome.ok ⟨some []⟩) (FetchOutcome.fail none)
        ⟨none, false, none⟩).1.error ≠ some "City not found" := by
  constructor
  · decide
  · decide

/-- C3 (amended): for every non-blank query whose geocoding step decodes
to an absent or empty `results` array, `fetchWeather` stores the
not-found error message `Cidade não encontrada.` (the spec renders it in
English as "City not found") and the request trace is exactly the one
geocoding request — zero forecast requests are issued. -/
theorem lookup_notfound (city : String) (geo : FetchOutcome GeoData)
    (forecast : FetchOutcome ForecastData) (s : AppState)
    (hcity : jsTrim city ≠ "")
    (hempty : geo = FetchOutcome.ok ⟨none⟩ ∨ geo = FetchOutcome.ok ⟨some []⟩) :
    (fetchWeather city geo forecast s).1.error = some "Cidade não encontrada." ∧
    (fetchWeather city geo forecast s).2 = [Request.geocoding city] := by
  rcases hempty with h | h <;> subst h <;>
    (unfold fetchWeather; rw [if_neg hcity]) <;> exact ⟨rfl, rfl⟩

/-- Witness for C3's amended theorem at a concrete empty result set. -/
theorem lookup_notfound_witness :
    (fetchWeather "rio" (FetchOutcome.ok ⟨some []⟩) (FetchOutcome.fail none)
        ⟨none, false, none⟩).1.error = some "Cidade não encontrada." ∧
    (fetchWeather "rio" (FetchOutcome.ok ⟨some []⟩) (FetchOutcome.fail none)
        ⟨none, false, none⟩).2 = [Request.geocoding "rio"] :=
  lookup_notfound "rio" (FetchOutcome.ok ⟨some []⟩) (FetchOutcome.fail none)
    ⟨none, false, none⟩ (by decide) (Or.inr rfl)

/-- C4: for every non-blank query the request trace is either the single
geocoding request, or the geocoding request followed by exactly one
forecast request whose coordinates are the latitude/longitude of the
first entry of the decoded geocoding results — so exactly one geocoding
request precedes any forecast request and at most one request of each
kind is issued. -/
theorem lookup_request_order (city : String) (geo : FetchOutcome GeoData)
    (forecast : FetchOutcome ForecastData) (s : AppState)
    (hcity : jsTrim city ≠ "") :
    (fetchWeather city geo forecast s).2 = [Request.geocoding city] ∨
    (∃ first rest,
      geo = FetchOutcome.ok ⟨some (first :: rest)⟩ ∧
      (fetchWeather city geo forecast s).2 =
        [Request.geocoding city, Request.forecast first.latitude first.longitude]) := by
  unfold fetchWeather
  rw [if_neg hcity]
  rcases geo with message | ⟨rs⟩
  · left; rfl
  · rcases rs with _ | ls
    · left; rfl
    · rcases ls with _ | ⟨first, rest⟩
      · left; rfl
      · right
        refine ⟨first, rest, rfl, ?_⟩
        rcases forecast with m2 | ⟨cur⟩
        · rfl
        · rcases cur with _ | c <;> rfl

/-- Witness for C4 at a concrete successful pair of responses. -/
theorem lookup_request_order_witness :
    (fetchWeather "sao paulo" (FetchOutcome.ok saoPauloGeo) (FetchOutcome.ok saoPauloForecast)
        ⟨none, false, none⟩).2 = [Request.geocoding "sao paulo"] ∨
    (∃ first rest,
      FetchOutcome.ok saoPauloGeo = FetchOutcome.ok (⟨some (first :: rest)⟩ : GeoData) ∧
      (fetchWeather "sao paulo" (FetchOutcome.ok saoPauloGeo) (FetchOutcome.ok saoPauloForecast)
          ⟨none, false, none⟩).2 =
        [Request.geocoding "sao paulo",
         Request.forecast first.latitude first.longitude]) :=
  lookup_request_order "sao paulo" (FetchOutcome.ok saoPauloGeo)
    (FetchOutcome.ok saoPauloForecast) ⟨none, false, none⟩ (by decide)

/-- C5: a blank query (empty or whitespace-only) is a silent no-op:
no network request is issued, no error is raised, and the stored result,
error message and loading flag are all left unchanged. -/
theorem lookup_empty_noop (city : String) (geo : FetchOutcome GeoData)
    (forecast : FetchOutcome ForecastData) (s : AppState)
    (hcity : jsTrim city = "") :
    fetchWeather city geo forecast s = (s, []) := by
  unfold fetchWeather
  rw [if_pos hcity]

/-- Witness for C5 at the whitespace-only query of the spec. -/
theorem lookup_empty_noop_witness :
    fetchWeather "   " (FetchOutcome.fail none) (FetchOutcome.fail none)
      ⟨none, false, none⟩ = (⟨none, false, none⟩, []) :=
  lookup_empty_noop "   " (FetchOutcome.fail none) (FetchOutcome.fail none)
    ⟨none, false, none⟩ (by decide)

/-- C6: the spec's round-trip — geocoding returns São Paulo at
(-23.5, -46.6) with region SP and country BR, the forecast returns
21.4 °C with weather code 3; the lookup stores city São Paulo, region SP,
country BR, temperature rounded to 21 and code 3, with no error and the
loading flag cleared, and `getWeatherDetails 3` is the partly-cloudy
presentation. -/
theorem lookup_roundtrip_saopaulo :
    (fetchWeather "sao paulo" (FetchOutcome.ok saoPauloGeo) (FetchOutcome.ok saoPauloForecast)
        ⟨none, false, none⟩).1 =
      ⟨some { city := "São Paulo", region := some "SP", country := "BR",
              temp := some 21, code := some 3 }, false, none⟩ ∧
    getWeatherDetails 3 = ⟨"weather-partly-cloudy", "Parcialmente Nublado", "#A0A0A0"⟩ := by
  constructor
  · decide
  · decide

/-- C7 counterexample: the generic fallback stored when a failure carries
no message is the source's Portuguese string `Erro ao buscar dados.`,
not the claimed `Error fetching data.`. -/
theorem lookup_fallback_message_counterexample :
    (fetchWeather "rio" (FetchOutcome.fail none) (FetchOutcome.fail none)
        ⟨none, false, none⟩).1.error = some "Erro ao buscar dados." ∧
    (fetchWeather "rio" (FetchOutcome.fail none) (FetchOutcome.fail none)
        ⟨none, false, none⟩).1.error ≠ some "Error fetching data." := by
  constructor
  · decide
  · decide

/-- C7 (amended): every failure raised during either network step of a
non-blank lookup is captured by the single top-level handler, which
stores the transport-supplied message when present and non-empty and
otherwise the generic fallback `Erro ao buscar dados.` (rendered in the
spec in English as "Error fetching data."); after any failed lookup the
stored result is `none`, so a partial reading is never exposed. -/
theorem lookup_failure_handling (city : String) (geo : FetchOutcome GeoData)
    (forecast : FetchOutcome ForecastData) (s : AppState)
    (hcity : jsTrim city ≠ "") :
    (∀ message, geo = FetchOutcome.fail message →
      (fetchWeather city geo forecast s).1.error =
        some (messageOr message "Erro ao buscar dados.") ∧
      (fetchWeather city geo forecast s).1.weatherData = none) ∧
    (∀ first rest message, geo = FetchOutcome.ok ⟨some (first :: rest)⟩ →
      forecast = FetchOutcome.fail message →
      (fetchWeather city geo forecast s).1.error =
        some (messageOr message "Erro ao buscar dados.") ∧
      (fetchWeather city geo forecast s).1.weatherData = none) ∧
    ((fetchWeather city geo forecast s).1.error ≠ none →
      (fetchWeather city geo forecast s).1.weatherData = none) := by
  refine ⟨?_, ?_, ?_⟩
  · intro message h
    subst h
    unfold fetchWeather
    rw [if_neg hcity]
    exact ⟨rfl, rfl⟩
  · intro first rest message hg hf
    subst hg
    subst hf
    unfold fetchWeather
    rw [if_neg hcity]
    exact ⟨rfl, rfl⟩
  · intro herr
    unfold fetchWeather at herr ⊢
    rw [if_neg hcity] at herr ⊢
    rcases h : fetchWeatherTry city geo forecast with ⟨res, reqs⟩
    rw [h] at herr
    cases res
    · rfl
    · exact absurd rfl herr

/-- Witness for C7's amended theorem: a transport failure with a message
stores that message and clears the result. -/
theorem lookup_failure_handling_witness :
    (fetchWeather "rio" (FetchOutcome.fail (some "timeout")) (FetchOutcome.fail none)
        ⟨none, false, none⟩).1.error =
      some (messageOr (some "timeout") "Erro ao buscar dados.") ∧
    (fetchWeather "rio" (FetchOutcome.fail (some "timeout")) (FetchOutcome.fail none)
        ⟨none, false, none⟩).1.weatherData = none :=
  (lookup_failure_handling "rio" (FetchOutcome.fail (some "timeout")) (FetchOutcome.fail none)
    ⟨none, false, none⟩ (by decide)).1 (some "timeout") rfl

/-- C8: after every completed invocation of `fetchWeather` on a
non-blank query — success or failure, whatever the two responses were —
the loading flag is false. -/
theorem lookup_clears_loading (city : String) (geo : FetchOutcome GeoData)
    (forecast : FetchOutcome ForecastData) (s : AppState)
    (hcity : jsTrim city ≠ "") :
    (fetchWeather city geo forecast s).1.loading = false := by
  unfold fetchWeather
  rw [if_neg hcity]
  rcases h : fetchWeatherTry city geo forecast with ⟨res, reqs⟩
  cases res
  · rfl
  · rfl

/-- Witness for C8 at a concrete failing run. -/
theorem lookup_clears_loading_witness :
    (fetchWeather "rio" (FetchOutcome.fail none) (FetchOutcome.fail none)
        ⟨none, true, none⟩).1.loading = false :=
  lookup_clears_loading "rio" (FetchOutcome.fail none) (FetchOutcome.fail none)
    ⟨none, true, none⟩ (by decide)

/-- C9: after every completed invocation of `fetchWeather` on a
non-blank query, at most one of the error message and the stored result
is non-null; and a blank invocation is a no-op, so the property is also
preserved from the previous state in that case. -/
theorem lookup_result_error_exclusive (city : String) (geo : FetchOutcome GeoData)
    (forecast : FetchOutcome ForecastData) (s : AppState) :
    (jsTrim city ≠ "" →
      ((fetchWeather city geo forecast s).1.error = none ∨
       (fetchWeather city geo forecast s).1.weatherData = none)) ∧
    ((s.error = none ∨ s.weatherData = none) →
      ((fetchWeather city geo forecast s).1.error = none ∨
       (fetchWeather city geo forecast s).1.weatherData = none)) := by
  have key : jsTrim city ≠ "" →
      ((fetchWeather city geo forecast s).1.error = none ∨
       (fetchWeather city geo forecast s).1.weatherData = none) := by
    intro hcity
    unfold fetchWeather
    rw [if_neg hcity]
    rcases h : fetchWeatherTry city geo forecast with ⟨res, reqs⟩
    cases res
    · right; rfl
    · left; rfl
  refine ⟨key, ?_⟩
  intro hs
  by_cases hcity : jsTrim city = ""
  · unfold fetchWeather
    rw [if_pos hcity]
    exact hs
  · exact key hcity

/-- Witness for C9 at a concrete successful run. -/
theorem lookup_result_error_exclusive_witness :
    (fetchWeather "sao paulo" (FetchOutcome.ok saoPauloGeo) (FetchOutcome.ok saoPauloForecast)
        ⟨none, false, none⟩).1.error = none ∨
    (fetchWeather "sao paulo" (FetchOutcome.ok saoPauloGeo) (FetchOutcome.ok saoPauloForecast)
        ⟨none, false, none⟩).1.weatherData = none :=
  (lookup_result_error_exclusive "sao paulo" (FetchOutcome.ok saoPauloGeo)
    (FetchOutcome.ok saoPauloForecast) ⟨none, false, none⟩).1 (by decide)

/-- C10 counterexample: a forecast response that decodes successfully with
a `current` object lacking `temperature_2m` does NOT end in the error
state — the unguarded read of a missing field yields `undefined`, not a
raised condition, so a weather object is stored (its `temp` is the `NaN`
of `Math.round(undefined)`, modelled `none`) and the error stays null,
contrary to the claim. -/
theorem lookup_missing_field_counterexample :
    (fetchWeather "sao paulo" (FetchOutcome.ok saoPauloGeo) (FetchOutcome.ok missingTempForecast)
        ⟨none, false, none⟩).1 =
      ⟨some { city := "São Paulo", region := some "SP", country := "BR",
              temp := none, code := some 3 }, false, none⟩ := by
  decide

/-- C10 (amended): only an absent `current` object makes the unguarded
field access raise: in that case the invocation stores no weather
object, ends in the error state, and clears the loading flag. -/
theorem lookup_missing_current (city : String) (geo : FetchOutcome GeoData)
    (forecast : FetchOutcome ForecastData) (s : AppState)
    (hcity : jsTrim city ≠ "") (first : GeoEntry) (rest : List GeoEntry)
    (hgeo : geo = FetchOutcome.ok ⟨some (first :: rest)⟩)
    (hforecast : forecast = FetchOutcome.ok ⟨none⟩) :
    (fetchWeather city geo forecast s).1.weatherData = none ∧
    (fetchWeather city geo forecast s).1.error ≠ none ∧
    (fetchWeather city geo forecast s).1.loading = false := by
  subst hgeo
  subst hforecast
  unfold fetchWeather
  rw [if_neg hcity]
  refine ⟨rfl, ?_, rfl⟩
  intro h
  exact Option.noConfusion h

/-- Witness for C10's amended theorem at a concrete absent `current`. -/
theorem lookup_missing_current_witness :
    (fetchWeather "sao paulo" (FetchOutcome.ok saoPauloGeo)
        (FetchOutcome.ok ⟨none⟩) ⟨none, false, none⟩).1.weatherData = none ∧
    (fetchWeather "sao paulo" (FetchOutcome.ok saoPauloGeo)
        (FetchOutcome.ok ⟨none⟩) ⟨none, false, none⟩).1.error ≠ none ∧
    (fetchWeather "sao paulo" (FetchOutcome.ok saoPauloGeo)
        (FetchOutcome.ok ⟨none⟩) ⟨none, false, none⟩).1.loading = false :=
  lookup_missing_current "sao paulo" (FetchOutcome.ok saoPauloGeo)
    (FetchOutcome.ok ⟨none⟩) ⟨none, false, none⟩ (by decide)
    { latitude := mkRat (-235) 10, longitude := mkRat (-466) 10,
      name := "São Paulo", admin1 := some "SP", country_code := "BR" } [] rfl rfl
